import Mathlib

set_option linter.unusedVariables false

/-!
Verification of the outlines repository: a shallow embedding of the
source files under scrutiny (outlines/types/regex.py,
outlines/models/transformers_vision.py, outlines/models/__init__.py)
together with spec-modelled definitions for the components whose
source is not part of the sample (type classification utilities, the
Dottxt type adapter, and the choice-compilation / constrained-output
contract), and theorems settling the frozen claims about them.
-/

namespace Outlines

/-- Python exception classes that appear in the embedded code paths.
`unsupportedTypeError` is the dedicated classification-failure error of
the error taxonomy; the others are Python builtins. -/
inductive PyError where
  | notImplementedError (msg : String)
  | typeError (msg : String)
  | valueError (msg : String)
  | unsupportedTypeError (msg : String)
deriving DecidableEq

/-- Python runtime values relevant to the vision adapter: strings,
integers, PIL images (identified by a tag), lists and tuples. -/
inductive PyVal where
  | str (s : String)
  | int (n : Int)
  | image (id : Nat)
  | list (xs : List PyVal)
  | tuple (xs : List PyVal)

/-- `isinstance(v, str)`. -/
def PyVal.isStr : PyVal → Bool
  | .str _ => true
  | _ => false

/-- `isinstance(v, list)`. -/
def PyVal.isList : PyVal → Bool
  | .list _ => true
  | _ => false

/-- `isinstance(v, tuple)`. -/
def PyVal.isTuple : PyVal → Bool
  | .tuple _ => true
  | _ => false

/-- `len(v)` for the list values on which the adapter calls it. -/
def PyVal.listLen : PyVal → Nat
  | .list xs => xs.length
  | _ => 0

/-- Prefix test on character lists (executable). -/
def isPrefixOfB : List Char → List Char → Bool
  | [], _ => true
  | _ :: _, [] => false
  | a :: as, b :: bs => a == b && isPrefixOfB as bs

/-- Strict-prefix test on character lists (executable). -/
def isStrictPrefixOfB (s l : List Char) : Bool :=
  isPrefixOfB s l && decide (s.length < l.length)

/-- Substring test on character lists (executable). -/
def containsSub : List Char → List Char → Bool
  | [], needle => needle.isEmpty
  | a :: rest, needle => isPrefixOfB needle (a :: rest) || containsSub rest needle

namespace regex

/-- Embedding of `one_or_more` from outlines/types/regex.py. -/
def one_or_more (pattern : String) : String :=
  "(" ++ pattern ++ ")+"

/-- Embedding of `zero_or_more` from outlines/types/regex.py. -/
def zero_or_more (pattern : String) : String :=
  "(" ++ pattern ++ ")*"

/-- Embedding of `exactly` from outlines/types/regex.py: the body is a
bare `raise NotImplementedError` regardless of the arguments. -/
def exactly (number : Int) (pattern : String) : Except PyError String :=
  .error (.notImplementedError "")

/-- Embedding of `between` from outlines/types/regex.py: the body is a
bare `raise NotImplementedError` regardless of the arguments. -/
def between (min : Int) (max : Int) (pattern : String) : Except PyError String :=
  .error (.notImplementedError "")

end regex

namespace TransformersVisionTypeAdapter

/-- The message of the `NotImplementedError` raised by the
`format_input` fallback in outlines/models/transformers_vision.py.
The Python source is the f-string
`f"The input type {input} is not available." "Please provide ..."`:
the interpolated name is the Python builtin function `input`, not the
`model_input` parameter, so the rendered text is the constant
`str(input) = "<built-in function input>"` and the message does not
depend on the offending value.  (Note also the missing space after
"available.", an artifact of adjacent string-literal concatenation.) -/
def format_input_fallback_message (model_input : PyVal) : String :=
  "The input type <built-in function input> is not available." ++
  "Please provide a 2 element tuple containing " ++
  "a prompt or list of prompts and a PIL image " ++
  "or a list of PIL images. The number of prompts " ++
  "must match the number of images."

/-- Embedding of `TransformersVisionTypeAdapter.format_list_input`:
the branch of `format_input` registered for tuples.  The tuple is
unpacked into `prompts, images` (a `ValueError` re-raised as
`TypeError` when the tuple does not have exactly 2 elements), then the
two isinstance checks and the length check of the source are applied in
order. -/
def format_list_input (model_input : List PyVal) : Except PyError (PyVal × PyVal) :=
  match model_input with
  | [prompts, images] =>
    if (prompts.isStr && images.isList) || (prompts.isList && !images.isList) then
      .error (.typeError
        "You must either provide a single prompt and a single image or a list of prompts and a list of images.")
    else if prompts.isList && images.isList && decide (prompts.listLen ≠ images.listLen) then
      .error (.typeError "The number of prompts must match the number of images.")
    else
      .ok (prompts, images)
  | _ => .error (.typeError "The input must be a tuple of exactly 2 elements.")

/-- Embedding of the `singledispatchmethod` `format_input`: tuple
inputs are routed to `format_list_input`; every other input falls back
to the base implementation, which raises `NotImplementedError`. -/
def format_input (model_input : PyVal) : Except PyError (PyVal × PyVal) :=
  match model_input with
  | .tuple xs => format_list_input xs
  | v => .error (.notImplementedError (format_input_fallback_message v))

end TransformersVisionTypeAdapter

/-- Embedding of the `LogitsProcessorList` wrapper from the
`transformers` library: a list of logits processors. -/
structure LogitsProcessorList (α : Type) where
  processors : List α

namespace TransformersVisionTypeAdapter

/-- Embedding of `TransformersVisionTypeAdapter.format_output_type`
from outlines/models/transformers_vision.py: a non-None logits
processor is wrapped in a `LogitsProcessorList` as its only element;
None is returned unchanged. -/
def format_output_type {α : Type} (output_type : Option α) :
    Option (LogitsProcessorList α) :=
  match output_type with
  | some processor => some ⟨[processor]⟩
  | none => none

end TransformersVisionTypeAdapter

namespace TransformersVision

/-- Embedding of `TransformersVision.stream` from
outlines/models/transformers_vision.py: the body unconditionally raises
`NotImplementedError`. -/
def stream (model_input : PyVal) (output_type : Option PyVal)
    (inference_kwargs : List (String × PyVal)) : Except PyError Unit :=
  .error (.notImplementedError
    "Streaming is not implemented for TransformersVision models.")

end TransformersVision

/-- Output-type values fed to the Dottxt adapter: bare primitives
(identified by their Python name), regex and CFG structured types, and
values that carry a JSON schema string. -/
inductive OutputType where
  | primitiveType (name : String)
  | regexType (pattern : String)
  | cfgType (definition : String)
  | jsonSchemaType (schema : String)
deriving DecidableEq

namespace DottxtTypeAdapter

/-- Modelled from the spec: outlines/models/dottxt.py is not part of
the sample (only tests/models/test_dottxt_type_adapter.py is).  Per the
spec, an unsupported output type fed to a backend that only supports
schema structured output fails with a type-not-supported error
identifying the offending type name; per the tests, None fails with
"You must provide an output type", a bare primitive with a message
matching "The type `str` is not supported", a regex type with a message
matching "Regex-based structured outputs will soon be", a CFG type with
a message matching "CFG-based structured outputs will soon be", and a
JSON-schema-bearing value is serialized to its schema string. -/
def format_output_type (output_type : Option OutputType) : Except PyError String :=
  match output_type with
  | none => .error (.typeError
      "You must provide an output type for the Dottxt model.")
  | some (.primitiveType name) => .error (.typeError
      ("The type `" ++ name ++ "` is not supported by Dottxt."))
  | some (.regexType _) => .error (.typeError
      "Regex-based structured outputs will soon be available with Dottxt.")
  | some (.cfgType _) => .error (.typeError
      "CFG-based structured outputs will soon be available with Dottxt.")
  | some (.jsonSchemaType schema) => .ok schema

end DottxtTypeAdapter

/-- Python typing expressions relevant to the primitive-type
classifiers: the four bare primitives, `Annotated[t, meta]`,
`NewType(name, t)`, `List[t]`, `Dict[k, v]`, and runtime instances of a
type (such as `1`, `1.0`, `"hello"`, `True`). -/
inductive TyExpr where
  | intTy
  | floatTy
  | strTy
  | boolTy
  | annotated (t : TyExpr) (meta : String)
  | newtype (name : String) (t : TyExpr)
  | listOf (t : TyExpr)
  | dictOf (k : TyExpr) (v : TyExpr)
  | instOf (t : TyExpr)
deriving DecidableEq

/-- Modelled from the spec: outlines/types/utils.py is not part of the
sample (only tests/types/test_types_utils.py is).  Per the spec,
native primitive types are checked before structural composites, so
composite container types must not be classified as primitives; per the
tests, `is_int` accepts the bare type `int`, `Annotated[int, ...]` and
`NewType(_, int)`, and rejects instances, `List[int]`, `Dict[int, int]`
and the other primitives. -/
def is_int : TyExpr → Bool
  | .intTy => true
  | .annotated t _ => is_int t
  | .newtype _ t => is_int t
  | _ => false

/-- Modelled from the spec: see `is_int`; the same classification for
`float`. -/
def is_float : TyExpr → Bool
  | .floatTy => true
  | .annotated t _ => is_float t
  | .newtype _ t => is_float t
  | _ => false

/-- Modelled from the spec: see `is_int`; the same classification for
`str`. -/
def is_str : TyExpr → Bool
  | .strTy => true
  | .annotated t _ => is_str t
  | .newtype _ t => is_str t
  | _ => false

/-- Modelled from the spec: see `is_int`; the same classification for
`bool`. -/
def is_bool : TyExpr → Bool
  | .boolTy => true
  | .annotated t _ => is_bool t
  | .newtype _ t => is_bool t
  | _ => false

/-- A Python object abstracted to the set of attribute names it
exposes; used to model duck-typed classification. -/
structure PyObj where
  attrs : List String

/-- `hasattr(o, a)`. -/
def hasAttr (o : PyObj) (a : String) : Bool := o.attrs.contains a

/-- Modelled from the spec: outlines/types/utils.py is not part of the
sample.  Per the spec, schema-builder objects are distinguished by
capability (exposing a "to schema" operation) rather than by exact type
identity: the classification is duck-typed on the `to_schema`
capability. -/
def is_genson_schema_builder (o : PyObj) : Bool := hasAttr o "to_schema"

/-- The genson `SchemaBuilder` fixture of the tests, abstracted to its
schema-relevant attributes. -/
def gensonBuilderObj : PyObj := ⟨["add_schema", "add_object", "to_schema"]⟩

/-- The builtin `dict` type (and a JSON-schema dict literal exposes the
same attributes). -/
def dictObj : PyObj := ⟨["get", "keys", "items", "values"]⟩

/-- The builtin `str` type (and a JSON-schema string literal exposes
the same attributes). -/
def strObj : PyObj := ⟨["split", "join", "format"]⟩

/-- The plain sample class of the tests: no schema-related attribute. -/
def sampleClassObj : PyObj := ⟨[]⟩

/-- The sample dataclass of the tests. -/
def sampleDataclassObj : PyObj := ⟨["__dataclass_fields__"]⟩

/-- The sample TypedDict of the tests. -/
def sampleTypedDictObj : PyObj := ⟨["__annotations__", "__total__"]⟩

/-- The sample pydantic model class of the tests: its schema operation
is called `model_json_schema`, not `to_schema`. -/
def samplePydanticModelObj : PyObj := ⟨["model_fields", "model_json_schema"]⟩

/-- The model classes exported by outlines/models/__init__.py (plus the
two `Transformers` subclasses visible in the sample:
`TransformersVision` from outlines/models/transformers_vision.py and
`Mamba` from the tests). -/
inductive ModelClass where
  | llamaCpp
  | transformers
  | transformersVision
  | mamba
  | exLlamaV2
  | mlxlm
  | vllm
  | openai
  | anthropic
  | gemini
  | ollama
  | dottxt
deriving DecidableEq

/-- The direct base class, where the sample shows one:
`TransformersVision(Transformers)` and `Mamba(Transformers)`. -/
def ModelClass.base : ModelClass → Option ModelClass
  | .transformersVision => some .transformers
  | .mamba => some .transformers
  | _ => none

/-- `issubclass` for the one-level hierarchy of the sample. -/
def ModelClass.isSubclassOf (c d : ModelClass) : Bool :=
  c == d ||
    match c.base with
    | some b => b == d
    | none => false

/-- Embedding of `SteerableModel = Union[LlamaCpp, Transformers, MLXLM,
VLLM]` from outlines/models/__init__.py, as the list of its members. -/
def steerableModel : List ModelClass :=
  [.llamaCpp, .transformers, .mlxlm, .vllm]

/-- Embedding of `BlackBoxModel = Union[OpenAI, Anthropic, Gemini,
Ollama, Dottxt]` from outlines/models/__init__.py. -/
def blackBoxModel : List ModelClass :=
  [.openai, .anthropic, .gemini, .ollama, .dottxt]

/-- A class is an instance of a `Union` when it is a subclass of one of
the unions members. -/
def memberOfUnion (c : ModelClass) (u : List ModelClass) : Bool :=
  u.any (fun d => c.isSubclassOf d)

/-- Abstract syntax of the regular expressions produced by the pattern
compiler: empty set, empty string, single character, alternation,
concatenation and Kleene star. -/
inductive Regex where
  | emptySet
  | epsilon
  | char (c : Char)
  | alt (r1 r2 : Regex)
  | cat (r1 r2 : Regex)
  | star (r : Regex)
deriving DecidableEq

/-- Whether a regular expression accepts the empty string. -/
def nullable : Regex → Bool
  | .emptySet => false
  | .epsilon => true
  | .char _ => false
  | .alt r1 r2 => nullable r1 || nullable r2
  | .cat r1 r2 => nullable r1 && nullable r2
  | .star _ => true

/-- Brzozowski derivative of a regular expression by a character. -/
def derivRe : Regex → Char → Regex
  | .emptySet, _ => .emptySet
  | .epsilon, _ => .emptySet
  | .char c, a => if a = c then .epsilon else .emptySet
  | .alt r1 r2, a => .alt (derivRe r1 a) (derivRe r2 a)
  | .cat r1 r2, a =>
    if nullable r1 then .alt (.cat (derivRe r1 a) r2) (derivRe r2 a)
    else .cat (derivRe r1 a) r2
  | .star r, a => .cat (derivRe r a) (.star r)

/-- Full-match of a regular expression on a character list, by
repeated derivation: the language defined by the pattern. -/
def rmatch (r : Regex) (s : List Char) : Bool :=
  nullable (s.foldl derivRe r)

/-- The regular expression matching exactly one literal string. -/
def litRe : List Char → Regex
  | [] => .epsilon
  | c :: cs => .cat (.char c) (litRe cs)

/-- Modelled from the spec: the enum/choice pattern compiler
(outlines Choice.to_regex is not part of the sample) builds an
alternation regex of the escaped literal values; on the abstract
syntax, an escaped literal is the literal itself. -/
def choiceToRegex : List (List Char) → Regex
  | [] => .emptySet
  | [l] => litRe l
  | l :: rest => .alt (litRe l) (choiceToRegex rest)

/-- Modelled from the spec: the output contract of a constrained
generate call — generated text is guaranteed to be a member of the
language defined by the compiled pattern. -/
def constrainedGenerateOk (r : Regex) (s : List Char) : Prop :=
  rmatch r s = true

/-- The result of an adapter call raised a `TypeError`. -/
def raisesTypeErr {α : Type} : Except PyError α → Bool
  | .error (.typeError _) => true
  | _ => false

/-- The result of an adapter call raised a `NotImplementedError`. -/
def raisesNotImpl {α : Type} : Except PyError α → Bool
  | .error (.notImplementedError _) => true
  | _ => false

/-- The result of an adapter call raised an `UnsupportedTypeError`. -/
def raisesUnsupportedType {α : Type} : Except PyError α → Bool
  | .error (.unsupportedTypeError _) => true
  | _ => false

/-- The message carried by an error result (empty for a success). -/
def errMsgOf {α : Type} : Except PyError α → String
  | .error (.notImplementedError m) => m
  | .error (.typeError m) => m
  | .error (.valueError m) => m
  | .error (.unsupportedTypeError m) => m
  | .ok _ => ""

/-- `constrainedGenerateOk` is decidable, so it can be evaluated on
concrete patterns and texts. -/
instance (r : Regex) (s : List Char) : Decidable (constrainedGenerateOk r s) :=
  inferInstanceAs (Decidable (rmatch r s = true))

/-- The literal "Bar" of the choice scenario, as a character list. -/
def barLit : List Char := ['B', 'a', 'r']

/-- The literal "Foo" of the choice scenario, as a character list. -/
def fooLit : List Char := ['F', 'o', 'o']

theorem rmatch_emptySet (s : List Char) : rmatch Regex.emptySet s = false := by
  induction s with
  | nil => rfl
  | cons c s ih => exact ih

theorem rmatch_epsilon (s : List Char) : rmatch Regex.epsilon s = s.isEmpty := by
  cases s with
  | nil => rfl
  | cons c s => exact rmatch_emptySet s

theorem rmatch_alt (s : List Char) :
    ∀ r1 r2 : Regex, rmatch (Regex.alt r1 r2) s = (rmatch r1 s || rmatch r2 s) := by
  induction s with
  | nil => intro r1 r2; rfl
  | cons c s ih => intro r1 r2; exact ih (derivRe r1 c) (derivRe r2 c)

theorem rmatch_cat_emptySet (s : List Char) :
    ∀ r : Regex, rmatch (Regex.cat Regex.emptySet r) s = false := by
  induction s with
  | nil => intro r; rfl
  | cons c s ih => intro r; exact ih r

theorem rmatch_cat_epsilon (s : List Char) (r : Regex) :
    rmatch (Regex.cat Regex.epsilon r) s = rmatch r s := by
  cases s with
  | nil => exact Bool.true_and _
  | cons c s =>
    calc rmatch (Regex.cat Regex.epsilon r) (c :: s)
        = rmatch (Regex.alt (Regex.cat Regex.emptySet r) (derivRe r c)) s := rfl
      _ = (rmatch (Regex.cat Regex.emptySet r) s || rmatch (derivRe r c) s) :=
          rmatch_alt s _ _
      _ = (false || rmatch (derivRe r c) s) := by rw [rmatch_cat_emptySet]
      _ = rmatch r (c :: s) := Bool.false_or _

theorem rmatch_char_cat (c d : Char) (r : Regex) (s : List Char) :
    rmatch (Regex.cat (Regex.char c) r) (d :: s) =
      if d = c then rmatch r s else false := by
  have h0 : rmatch (Regex.cat (Regex.char c) r) (d :: s)
      = rmatch (Regex.cat (if d = c then Regex.epsilon else Regex.emptySet) r) s := rfl
  rw [h0]
  by_cases h : d = c
  · rw [if_pos h, if_pos h, rmatch_cat_epsilon]
  · rw [if_neg h, if_neg h, rmatch_cat_emptySet]

theorem rmatch_lit (l : List Char) :
    ∀ s : List Char, rmatch (litRe l) s = true ↔ s = l := by
  induction l with
  | nil =>
    intro s
    cases s with
    | nil => exact iff_of_true rfl rfl
    | cons c s =>
      show rmatch Regex.epsilon (c :: s) = true ↔ c :: s = []
      rw [rmatch_epsilon]
      simp
  | cons c cs ih =>
    intro s
    cases s with
    | nil =>
      constructor
      · intro h; exact absurd h (by simp [rmatch, litRe, nullable])
      · intro h; cases h
    | cons d t =>
      show rmatch (Regex.cat (Regex.char c) (litRe cs)) (d :: t) = true ↔ d :: t = c :: cs
      rw [rmatch_char_cat]
      by_cases h : d = c
      · rw [if_pos h]
        constructor
        · intro ht
          rw [h, (ih t).mp ht]
        · intro he
          injection he with h1 h2
          exact (ih t).mpr h2
      · rw [if_neg h]
        constructor
        · intro hf; cases hf
        · intro he
          injection he with h1 h2
          exact absurd h1 h

theorem rmatch_choice_two (b f s : List Char) :
    rmatch (choiceToRegex [b, f]) s = true ↔ s = b ∨ s = f := by
  have h1 : choiceToRegex [b, f] = Regex.alt (litRe b) (litRe f) := rfl
  rw [h1, rmatch_alt s, Bool.or_eq_true, rmatch_lit, rmatch_lit]

/-- Claim C1: for a choice type over the two literals "Bar" and "Foo",
every text satisfying the constrained-generation output contract is
exactly one of the two literals as a full match, and is never a strict
prefix of either literal. -/
theorem c1_choice_generation_full_match (s : List Char)
    (h : constrainedGenerateOk (choiceToRegex [barLit, fooLit]) s) :
    (s = barLit ∨ s = fooLit) ∧
      isStrictPrefixOfB s barLit = false ∧
      isStrictPrefixOfB s fooLit = false := by
  have hm := (rmatch_choice_two barLit fooLit s).mp h
  rcases hm with hb | hf
  · subst hb
    exact ⟨Or.inl rfl, by decide, by decide⟩
  · subst hf
    exact ⟨Or.inr rfl, by decide, by decide⟩

theorem c1_choice_generation_full_match_witness :
    constrainedGenerateOk (choiceToRegex [barLit, fooLit]) barLit ∧
      (barLit = barLit ∨ barLit = fooLit) :=
  ⟨by decide, (c1_choice_generation_full_match barLit (by decide)).1⟩

/-- Claim C2 (evidence of the divergence): the Dottxt adapter rejects
a bare primitive output type with a message containing the name of the
offending type, but the fallback error message of
`TransformersVisionTypeAdapter.format_input` is one constant string —
the source interpolates the Python builtin `input` instead of the
`model_input` parameter — so it is identical for every input and does
not contain the offending input value. -/
theorem c2_error_message_evaluation :
    (∀ v w : PyVal, TransformersVisionTypeAdapter.format_input_fallback_message v =
        TransformersVisionTypeAdapter.format_input_fallback_message w) ∧
      containsSub (TransformersVisionTypeAdapter.format_input_fallback_message
        (PyVal.str "invalid input")).data ("invalid input").data = false ∧
      containsSub (errMsgOf (DottxtTypeAdapter.format_output_type
        (some (OutputType.primitiveType "str")))).data ("`str`").data = true ∧
      containsSub (errMsgOf (DottxtTypeAdapter.format_output_type
        (some (OutputType.primitiveType "int")))).data ("`int`").data = true := by
  refine ⟨fun v w => rfl, ?_, ?_, ?_⟩ <;> decide

/-- Claim C3 counterexample: on the non-tuple input "invalid input"
(the very input of test_transformers_vision_wrong_input_type), the
`format_input` fallback raises `NotImplementedError`, not the dedicated
classification error `UnsupportedTypeError`. -/
theorem c3_counterexample_not_unsupported :
    raisesUnsupportedType
        (TransformersVisionTypeAdapter.format_input (PyVal.str "invalid input")) = false ∧
      raisesNotImpl
        (TransformersVisionTypeAdapter.format_input (PyVal.str "invalid input")) = true :=
  ⟨rfl, rfl⟩

/-- Claim C3 (amended): the fallback of
`TransformersVisionTypeAdapter.format_input` on every non-tuple input
raises the generic builtin `NotImplementedError` (as the test
expects), not `UnsupportedTypeError`. -/
theorem c3_nontuple_raises_not_implemented (v : PyVal) (h : v.isTuple = false) :
    raisesNotImpl (TransformersVisionTypeAdapter.format_input v) = true := by
  cases v with
  | str s => rfl
  | int n => rfl
  | image id => rfl
  | list xs => rfl
  | tuple xs => simp [PyVal.isTuple] at h

theorem c3_nontuple_raises_not_implemented_witness :
    PyVal.isTuple (PyVal.str "invalid input") = false ∧
      raisesNotImpl
        (TransformersVisionTypeAdapter.format_input (PyVal.str "invalid input")) = true :=
  ⟨rfl, c3_nontuple_raises_not_implemented (PyVal.str "invalid input") rfl⟩

/-- Claim C4: for every integer arguments and every pattern string,
`exactly` and `between` raise `NotImplementedError` and return no
value. -/
theorem c4_exactly_between_not_implemented (number : Int) (pattern : String)
    (min max : Int) :
    regex.exactly number pattern = Except.error (PyError.notImplementedError "") ∧
      (regex.exactly number pattern).isOk = false ∧
      regex.between min max pattern = Except.error (PyError.notImplementedError "") ∧
      (regex.between min max pattern).isOk = false :=
  ⟨rfl, rfl, rfl, rfl⟩

/-- Claim C5: each primitive classifier accepts the bare primitive,
its Annotated form and its NewType form, and rejects instances,
List and Dict containers over the primitive, and the other three
primitives. -/
theorem c5_primitive_classifiers (m n : String) :
    (is_int TyExpr.intTy = true ∧
      is_int (TyExpr.annotated TyExpr.intTy m) = true ∧
      is_int (TyExpr.newtype n TyExpr.intTy) = true ∧
      is_int (TyExpr.instOf TyExpr.intTy) = false ∧
      is_int (TyExpr.listOf TyExpr.intTy) = false ∧
      is_int (TyExpr.dictOf TyExpr.intTy TyExpr.intTy) = false ∧
      is_int TyExpr.floatTy = false ∧
      is_int TyExpr.strTy = false ∧
      is_int TyExpr.boolTy = false) ∧
    (is_float TyExpr.floatTy = true ∧
      is_float (TyExpr.annotated TyExpr.floatTy m) = true ∧
      is_float (TyExpr.newtype n TyExpr.floatTy) = true ∧
      is_float (TyExpr.instOf TyExpr.floatTy) = false ∧
      is_float (TyExpr.listOf TyExpr.floatTy) = false ∧
      is_float (TyExpr.dictOf TyExpr.floatTy TyExpr.floatTy) = false ∧
      is_float TyExpr.intTy = false ∧
      is_float TyExpr.strTy = false ∧
      is_float TyExpr.boolTy = false) ∧
    (is_str TyExpr.strTy = true ∧
      is_str (TyExpr.annotated TyExpr.strTy m) = true ∧
      is_str (TyExpr.newtype n TyExpr.strTy) = true ∧
      is_str (TyExpr.instOf TyExpr.strTy) = false ∧
      is_str (TyExpr.listOf TyExpr.strTy) = false ∧
      is_str (TyExpr.dictOf TyExpr.strTy TyExpr.strTy) = false ∧
      is_str TyExpr.intTy = false ∧
      is_str TyExpr.floatTy = false ∧
      is_str TyExpr.boolTy = false) ∧
    (is_bool TyExpr.boolTy = true ∧
      is_bool (TyExpr.annotated TyExpr.boolTy m) = true ∧
      is_bool (TyExpr.newtype n TyExpr.boolTy) = true ∧
      is_bool (TyExpr.instOf TyExpr.boolTy) = false ∧
      is_bool (TyExpr.listOf TyExpr.boolTy) = false ∧
      is_bool (TyExpr.dictOf TyExpr.boolTy TyExpr.boolTy) = false ∧
      is_bool TyExpr.intTy = false ∧
      is_bool TyExpr.floatTy = false ∧
      is_bool TyExpr.strTy = false) :=
  ⟨⟨rfl, rfl, rfl, rfl, rfl, rfl, rfl, rfl, rfl⟩,
    ⟨rfl, rfl, rfl, rfl, rfl, rfl, rfl, rfl, rfl⟩,
    ⟨rfl, rfl, rfl, rfl, rfl, rfl, rfl, rfl, rfl⟩,
    ⟨rfl, rfl, rfl, rfl, rfl, rfl, rfl, rfl, rfl⟩⟩

/-- Claim C6: schema-builder classification is duck-typed on the
`to_schema` capability: every object exposing it is classified as a
schema builder, the genson builder fixture is accepted, and the plain
dict, string, JSON-schema literals, ordinary class, dataclass,
TypedDict and pydantic model fixtures are all rejected. -/
theorem c6_genson_duck_typed :
    (∀ o : PyObj, hasAttr o "to_schema" = true → is_genson_schema_builder o = true) ∧
      is_genson_schema_builder gensonBuilderObj = true ∧
      is_genson_schema_builder dictObj = false ∧
      is_genson_schema_builder strObj = false ∧
      is_genson_schema_builder sampleClassObj = false ∧
      is_genson_schema_builder sampleDataclassObj = false ∧
      is_genson_schema_builder sampleTypedDictObj = false ∧
      is_genson_schema_builder samplePydanticModelObj = false := by
  refine ⟨fun o h => h, ?_, ?_, ?_, ?_, ?_, ?_, ?_⟩ <;> decide

theorem c6_genson_duck_typed_witness :
    hasAttr gensonBuilderObj "to_schema" = true ∧
      is_genson_schema_builder gensonBuilderObj = true :=
  ⟨by decide, c6_genson_duck_typed.1 gensonBuilderObj (by decide)⟩

/-- Claim C7: the SteerableModel and BlackBoxModel unions are
disjoint — no model class (including the Transformers subclasses) is
an instance of both. -/
theorem c7_steerable_blackbox_disjoint (c : ModelClass) :
    (memberOfUnion c steerableModel && memberOfUnion c blackBoxModel) = false := by
  cases c <;> decide

theorem fli_typeErr (p i : PyVal) :
    raisesTypeErr (TransformersVisionTypeAdapter.format_list_input [p, i]) =
      ((p.isStr && i.isList) || (p.isList && !i.isList) ||
        (p.isList && i.isList && decide (p.listLen ≠ i.listLen))) := by
  cases hps : p.isStr <;> cases hpl : p.isList <;> cases hil : i.isList <;>
    by_cases hlen : p.listLen = i.listLen <;>
      simp [TransformersVisionTypeAdapter.format_list_input, raisesTypeErr,
        hps, hpl, hil, hlen]

theorem fli_ok (p i : PyVal)
    (h : (p.isStr = true ∧ i.isList = false) ∨
      (p.isList = true ∧ i.isList = true ∧ p.listLen = i.listLen)) :
    TransformersVisionTypeAdapter.format_list_input [p, i] = .ok (p, i) := by
  have hsl : p.isStr = true → p.isList = false := by
    cases p <;> simp [PyVal.isStr, PyVal.isList]
  rcases h with ⟨hs, hl⟩ | ⟨hp, hi, hlen⟩
  · simp [TransformersVisionTypeAdapter.format_list_input, hs, hl, hsl hs]
  · have hps : p.isStr = false := by
      cases p <;> simp_all [PyVal.isStr, PyVal.isList]
    simp [TransformersVisionTypeAdapter.format_list_input, hp, hi, hps, hlen]

theorem fli_not_two (xs : List PyVal) (h : xs.length ≠ 2) :
    raisesTypeErr (TransformersVisionTypeAdapter.format_list_input xs) = true := by
  cases xs with
  | nil => rfl
  | cons a t =>
    cases t with
    | nil => rfl
    | cons b t2 =>
      cases t2 with
      | nil => exact absurd rfl h
      | cons c t3 => rfl

/-- Claim C8: `format_list_input` returns the pair `(prompts, images)`
unchanged when the 2-element tuple holds a string prompt with a
non-list images value, or two lists of equal length; and it raises
`TypeError` exactly when the tuple does not unpack into 2 elements,
the prompt is a string while images is a list, the prompt is a list
while images is not, or both are lists of different lengths. -/
theorem c8_format_list_input_spec :
    (∀ prompts images : PyVal,
        ((prompts.isStr = true ∧ images.isList = false) ∨
          (prompts.isList = true ∧ images.isList = true ∧
            prompts.listLen = images.listLen)) →
        TransformersVisionTypeAdapter.format_list_input [prompts, images] =
          .ok (prompts, images)) ∧
    (∀ prompts images : PyVal,
        raisesTypeErr
            (TransformersVisionTypeAdapter.format_list_input [prompts, images]) = true ↔
          ((prompts.isStr = true ∧ images.isList = true) ∨
            (prompts.isList = true ∧ images.isList = false) ∨
            (prompts.isList = true ∧ images.isList = true ∧
              prompts.listLen ≠ images.listLen))) ∧
    (∀ xs : List PyVal, xs.length ≠ 2 →
        raisesTypeErr (TransformersVisionTypeAdapter.format_list_input xs) = true) := by
  refine ⟨fli_ok, ?_, fli_not_two⟩
  intro p i
  rw [fli_typeErr]
  simp [Bool.or_eq_true, Bool.and_eq_true, decide_eq_true_eq, or_assoc, and_assoc]

theorem c8_format_list_input_spec_witness :
    ((PyVal.str "p").isStr = true ∧ (PyVal.image 0).isList = false) ∧
      TransformersVisionTypeAdapter.format_list_input [PyVal.str "p", PyVal.image 0] =
        Except.ok (PyVal.str "p", PyVal.image 0) :=
  ⟨⟨rfl, rfl⟩,
    c8_format_list_input_spec.1 (PyVal.str "p") (PyVal.image 0) (Or.inl ⟨rfl, rfl⟩)⟩

/-- Claim C10: `TransformersVision.stream` raises
`NotImplementedError` for every input, output type and inference
keyword arguments. -/
theorem c10_stream_not_implemented (model_input : PyVal) (output_type : Option PyVal)
    (inference_kwargs : List (String × PyVal)) :
    TransformersVision.stream model_input output_type inference_kwargs =
      Except.error (PyError.notImplementedError
        "Streaming is not implemented for TransformersVision models.") :=
  rfl

/-- Claim C9: `format_output_type` maps None to None and wraps every
non-None processor, unmodified, as the only element of a
`LogitsProcessorList`. -/
theorem c9_format_output_type_maps (α : Type) (processor : α) :
    TransformersVisionTypeAdapter.format_output_type (none : Option α) = none ∧
      TransformersVisionTypeAdapter.format_output_type (some processor) =
        some ⟨[processor]⟩ :=
  ⟨rfl, rfl⟩

end Outlines
